import Mathlib

/-!
Verification development for the SyLC media player (SyLC.py).

The two cores under study are the stereo-3D content classifier
(`Video3DAnalyzer.analyze_file` together with `_classify_stereo_mode` and
`_promote_stereo_mode`) and the on-demand thumbnail preview machinery of
`TimeSlider` (debounced extraction, FIFO-bounded preview cache, staleness
check) plus the worker function `_extract_thumbnail_ffmpeg`.

The Python code is shallowly embedded: parsed ffprobe JSON output is the
inductive `JVal`; Python exceptions that the code can raise while walking
that JSON (AttributeError on `.get`/`.lower`/`.items` of a non-matching
value, TypeError on iterating a non-iterable) are the inductive `PyExc`,
and fallible code returns `Except PyExc _`.  The environment-dependent
outcome of resolving and running ffprobe/ffmpeg is abstracted into the
inductives `ProbeOutcome` / `RunOutcome`, whose cases are exactly the
cases distinguished by the Python error handling.  String lowering is
ASCII (the metadata keywords the code inspects are ASCII).
-/

namespace SyLC

/-- A parsed JSON value, as produced by `json.loads` on ffprobe output. -/
inductive JVal where
  | jnull
  | jbool (b : Bool)
  | jnum (n : Int)
  | jstr (s : String)
  | jarr (elems : List JVal)
  | jobj (fields : List (String × JVal))

/-- Python exceptions that the analysis code can raise while inspecting
parsed JSON and that `analyze_file` does NOT catch. -/
inductive PyExc where
  | attributeError
  | typeError
deriving DecidableEq

/-- Python truthiness of a JSON value. -/
def pyTruthy : JVal → Bool
  | .jnull => false
  | .jbool b => b
  | .jnum n => n != 0
  | .jstr s => s != ""
  | .jarr xs => !xs.isEmpty
  | .jobj fs => !fs.isEmpty

/-- `d.get(k)` on a JSON object's field list (`None` = `Option.none`). -/
def objGet (fs : List (String × JVal)) (k : String) : Option JVal :=
  (fs.find? (fun p => p.1 == k)).map (fun p => p.2)

/-- `d.get(k, default)` on a JSON object's field list. -/
def objGetD (fs : List (String × JVal)) (k : String) (d : JVal) : JVal :=
  (objGet fs k).getD d

/-- Python `x or default` where `x` is an optional JSON value
(missing key, i.e. `None`, is falsy). -/
def pyOrD (v : Option JVal) (d : JVal) : JVal :=
  match v with
  | none => d
  | some x => if pyTruthy x then x else d

/-- Python `a or b` on strings (empty string is falsy). -/
def pyOrStr (a b : String) : String :=
  if a = "" then b else a

/-- ASCII lowercasing, the embedding of `str.lower()` on the ASCII
metadata strings the code inspects. -/
def pyLower (s : String) : String :=
  ⟨s.data.map Char.toLower⟩

/-- The whitespace characters removed by Python `str.strip()`. -/
def isPySpace (c : Char) : Bool :=
  c == ' ' || c == '\t' || c == '\n' || c == '\r' || c == '\x0b' || c == '\x0c'

/-- Python `str.strip()`: drop whitespace from both ends. -/
def pyStrip (s : String) : String :=
  ⟨((s.data.dropWhile isPySpace).reverse.dropWhile isPySpace).reverse⟩

/-- `(v).lower()` on a JSON value: AttributeError unless it is a string. -/
def pyLowerJ : JVal → Except PyExc String
  | .jstr s => .ok (pyLower s)
  | _ => .error .attributeError

/-- Auxiliary for the Python substring test: does `pat` occur as a
contiguous run inside `s`? -/
def containsSubAux (pat : List Char) : List Char → Bool
  | [] => pat.isEmpty
  | c :: rest => pat.isPrefixOf (c :: rest) || containsSubAux pat rest

/-- Python substring test `pat in s`. -/
def containsSub (pat s : String) : Bool :=
  containsSubAux pat.toList s.toList

/-- Python `for x in v`: lists yield elements, strings yield one-character
strings, dicts yield their keys, everything else raises TypeError. -/
def pyIter : JVal → Except PyExc (List JVal)
  | .jarr xs => .ok xs
  | .jstr s => .ok (s.toList.map (fun c => .jstr (String.singleton c)))
  | .jobj fs => .ok (fs.map (fun p => .jstr p.1))
  | _ => .error .typeError

/-- `v.items()`: AttributeError unless `v` is a dict. -/
def pyItems : JVal → Except PyExc (List (String × JVal))
  | .jobj fs => .ok fs
  | _ => .error .attributeError

/-- `v.get(...)` requires a dict; AttributeError otherwise. -/
def asObj : JVal → Except PyExc (List (String × JVal))
  | .jobj fs => .ok fs
  | _ => .error .attributeError

/-- `v.get(k, d)` on a JSON value (AttributeError unless a dict). -/
def dictGetD (v : JVal) (k : String) (d : JVal) : Except PyExc JVal :=
  match v with
  | .jobj fs => .ok (objGetD fs k d)
  | _ => .error .attributeError

/-- Python `v == s` for an optional JSON value against a string literal. -/
def pyEqStr (v : Option JVal) (s : String) : Bool :=
  match v with
  | some (.jstr t) => t == s
  | _ => false

/-- Python `v == n` for a JSON value against an int literal
(a Python bool compares equal to 0/1). -/
def pyEqInt (v : JVal) (n : Int) : Bool :=
  match v with
  | .jnum m => m == n
  | .jbool b => (if b then (1 : Int) else 0) == n
  | _ => false

/-- SyLC.py lines 234-240: the `_STEREO_PRIORITY` dict, read through
`.get(mode, 0)`. -/
def _STEREO_PRIORITY (mode : String) : Nat :=
  if mode = "none" then 0
  else if mode = "tab" then 1
  else if mode = "sbs" then 2
  else if mode = "mvc" then 3
  else if mode = "anaglyph" then 1
  else 0

/-- SyLC.py lines 243-276, body after the falsiness guard: normalise a raw
stereo-mode string and classify it into sbs/tab/mvc/anaglyph (`none` =
unclassifiable, mapped from `Option.none`). -/
def classifyStr (mode_str : String) : Option String :=
  let mode : String :=
    ⟨(pyLower (pyStrip mode_str)).data.map (fun c => if c == '-' || c == ' ' then '_' else c)⟩
  if mode = "mono" ∨ mode = "left" ∨ mode = "right" ∨ mode = "both" ∨ mode = "2d" then
    none
  else if ["anaglyph", "cyan", "magenta", "red_cyan", "cyan_red"].any
      (fun k => containsSub k mode) then
    some "anaglyph"
  else if ["frame_altern", "framealternate", "frame_packing", "frame_sequential",
      "frame_packed", "view_packed", "mvc", "framepacking", "frameinterleaved",
      "block_lr", "block_rl", "packed"].any (fun k => containsSub k mode) then
    some "mvc"
  else if ["top_bottom", "bottom_top", "tab", "over_under", "under_over",
      "block_tb", "block_bt", "topbottom", "bt", "tb"].any (fun k => containsSub k mode) then
    some "tab"
  else if ["side_by_side", "sbs", "left_right", "right_left",
      "row_interleaved", "column_interleaved"].any (fun k => containsSub k mode) then
    some "sbs"
  else
    none

/-- SyLC.py lines 243-276: `_classify_stereo_mode` applied to a JSON value
(falsy values return None; `.strip()` on a truthy non-string raises). -/
def _classify_stereo_mode (v : JVal) : Except PyExc (Option String) :=
  if pyTruthy v then
    match v with
    | .jstr s => .ok (classifyStr s)
    | _ => .error .attributeError
  else
    .ok none

/-- The result dict built by `Video3DAnalyzer.analyze_file`
(SyLC.py lines 316-323).  `width`/`height` hold whatever JSON value the
stream carried, as in the Python dict. -/
structure AnalysisResult where
  is_3d : Bool
  stereo_mode : String
  has_mvc_track : Bool
  width : JVal
  height : JVal
  analysis_error : Option String

/-- The initial result dict of `analyze_file`. -/
def defaultResult : AnalysisResult :=
  { is_3d := false, stereo_mode := "none", has_mvc_track := false,
    width := .jnum 0, height := .jnum 0, analysis_error := none }

/-- SyLC.py lines 279-293: `_promote_stereo_mode`.  A falsy mode is a
no-op; otherwise the mode replaces `stereo_mode` when its priority is ≥
the current one, `is_3d` is set, and `has_mvc_track` is set when asked or
when the mode is `mvc`. -/
def _promote_stereo_mode (r : AnalysisResult) (mode : String) (mark_mvc : Bool) :
    AnalysisResult :=
  if mode = "" then r
  else
    let r1 := if _STEREO_PRIORITY mode ≥ _STEREO_PRIORITY r.stereo_mode then
        { r with stereo_mode := mode }
      else r
    let r2 := { r1 with is_3d := true }
    if mark_mvc ∨ mode = "mvc" then { r2 with has_mvc_track := true } else r2

/-- SyLC.py lines 374: the frame-packed resolution test, on the raw JSON
values stored in `result['width']`/`result['height']`. -/
def isFramepacked (w h : JVal) : Bool :=
  (pyEqInt w 1920 && (pyEqInt h 2205 || pyEqInt h 2160)) ||
    (pyEqInt w 3840 && pyEqInt h 4320)

/-- SyLC.py lines 389-391: `isinstance(disposition, dict) and
disposition.get('dependent')` (truthiness of the `dependent` field). -/
def dispDependent (v : JVal) : Bool :=
  match v with
  | .jobj fs =>
      match objGet fs "dependent" with
      | some x => pyTruthy x
      | none => false
  | _ => false

/-- SyLC.py lines 396-414: processing of one entry of a stream's
`side_data_list`. -/
def processSideData (r : AnalysisResult) (sd : JVal) : Except PyExc AnalysisResult :=
  match asObj sd with
  | .error e => .error e
  | .ok fs =>
    match pyLowerJ (pyOrD (objGet fs "type")
        (pyOrD (objGet fs "side_data_type") (.jstr ""))) with
    | .error e => .error e
    | .ok side_type =>
      if containsSub "stereo3d" side_type = true ∨ containsSub "stereo_3d" side_type = true then
        match _classify_stereo_mode (pyOrD (objGet fs "stereo_mode")
          (pyOrD (objGet fs "type")
            (pyOrD (objGet fs "layout")
              (pyOrD (objGet fs "view") (.jstr ""))))) with
        | .error e => .error e
        | .ok (some m) =>
            if m = "mvc" then .ok (_promote_stereo_mode r "mvc" true)
            else .ok (_promote_stereo_mode r m false)
        | .ok none => .ok r
      else .ok r

/-- Fold of `processSideData` over the entries of a `side_data_list`
(the inner `for side_data in ...` loop). -/
def foldSideData (r : AnalysisResult) : List JVal → Except PyExc AnalysisResult
  | [] => .ok r
  | sd :: rest =>
    match processSideData r sd with
    | .error e => .error e
    | .ok r1 => foldSideData r1 rest

/-- SyLC.py lines 418-422: processing of one `tags` item. -/
def processTag (r : AnalysisResult) (kv : String × JVal) : Except PyExc AnalysisResult :=
  if ("stereo".data.isPrefixOf (pyLower kv.1).data) = true then
    match _classify_stereo_mode kv.2 with
    | .error e => .error e
    | .ok (some m) => .ok (_promote_stereo_mode r m false)
    | .ok none => .ok r
  else .ok r

/-- Fold of `processTag` over the items of a stream's `tags` dict
(the inner `for key, value in tags.items()` loop). -/
def foldTags (r : AnalysisResult) : List (String × JVal) → Except PyExc AnalysisResult
  | [] => .ok r
  | kv :: rest =>
    match processTag r kv with
    | .error e => .error e
    | .ok r1 => foldTags r1 rest

/-- The frame-packed test of one stream's raw `width`/`height` fields
(with the `.get('width', 0)` defaults), SyLC.py lines 365-374. -/
def fpOf (fs : List (String × JVal)) : Bool :=
  isFramepacked (objGetD fs "width" (.jnum 0)) (objGetD fs "height" (.jnum 0))

/-- SyLC.py lines 365-379: store the stream's raw width/height in the
result and apply the resolution override when they are frame-packed. -/
def streamBase (r : AnalysisResult) (fs : List (String × JVal)) : AnalysisResult :=
  if fpOf fs = true then
    { r with width := objGetD fs "width" (.jnum 0),
             height := objGetD fs "height" (.jnum 0),
             is_3d := true, has_mvc_track := true, stereo_mode := "mvc" }
  else
    { r with width := objGetD fs "width" (.jnum 0),
             height := objGetD fs "height" (.jnum 0) }

/-- SyLC.py lines 385-386: the `codec_name`/`profile` test of the
codec-level MVC signal. -/
def codecProfileMvc (codec_name profile : String) : Bool :=
  (codec_name == "mvc" || codec_name == "h264") &&
    (containsSub "stereo" profile || containsSub "mvc" profile)

/-- SyLC.py lines 384-387: the codec/profile MVC promotion. -/
def streamCodec (r : AnalysisResult) (codec_name profile : String) : AnalysisResult :=
  if codecProfileMvc codec_name profile = true then
    _promote_stereo_mode r "mvc" true
  else r

/-- SyLC.py lines 384-391: the codec/profile MVC signal followed by the
dependent-disposition signal. -/
def streamCodecDisp (r : AnalysisResult) (fs : List (String × JVal))
    (codec_name profile : String) : AnalysisResult :=
  if dispDependent (pyOrD (objGet fs "disposition") (.jobj [])) = true then
    _promote_stereo_mode (streamCodec r codec_name profile) "mvc" true
  else streamCodec r codec_name profile

/-- SyLC.py lines 363-422: processing of one element of
`data.get('streams', [])` inside the main loop of `analyze_file`. -/
def processStream (r : AnalysisResult) (stream : JVal) : Except PyExc AnalysisResult :=
  match asObj stream with
  | .error e => .error e
  | .ok fs =>
    if pyEqStr (objGet fs "codec_type") "video" = true then
      match pyLowerJ (pyOrD (objGet fs "codec_name") (.jstr "")) with
      | .error e => .error e
      | .ok codec_name =>
        match pyLowerJ (pyOrD (objGet fs "profile") (.jstr "")) with
        | .error e => .error e
        | .ok profile =>
          if fpOf fs = true then
            .ok (streamCodecDisp (streamBase r fs) fs codec_name profile)
          else
            match pyIter (objGetD fs "side_data_list" (.jarr [])) with
            | .error e => .error e
            | .ok sdl =>
              match foldSideData (streamCodecDisp (streamBase r fs) fs codec_name profile) sdl with
              | .error e => .error e
              | .ok r4 =>
                match pyItems (pyOrD (objGet fs "tags") (.jobj [])) with
                | .error e => .error e
                | .ok tagItems => foldTags r4 tagItems
    else .ok r

/-- The main `for stream in data.get('streams', [])` loop of
`analyze_file`. -/
def foldStreams (r : AnalysisResult) : List JVal → Except PyExc AnalysisResult
  | [] => .ok r
  | s :: rest =>
    match processStream r s with
    | .error e => .error e
    | .ok r1 => foldStreams r1 rest

/-- SyLC.py lines 425-431: the separate-MVC-stream scan, run only when no
stream set `has_mvc_track`; stops at the first match. -/
def mvcScan (r : AnalysisResult) : List JVal → Except PyExc AnalysisResult
  | [] => .ok r
  | s :: rest =>
    match asObj s with
    | .error e => .error e
    | .ok fs =>
      if pyEqStr (objGet fs "codec_name") "mvc" = true then
        .ok { r with is_3d := true, has_mvc_track := true, stereo_mode := "mvc" }
      else mvcScan r rest

/-- The stream list drawn from parsed probe output:
`data.get('streams', [])` followed by iteration. -/
def streamsOf (data : JVal) : Except PyExc (List JVal) :=
  match dictGetD data "streams" (.jarr []) with
  | .error e => .error e
  | .ok v => pyIter v

/-- SyLC.py lines 360-431: the whole metadata inspection performed on
successfully parsed ffprobe output. -/
def analyzeProbeData (data : JVal) : Except PyExc AnalysisResult :=
  match streamsOf data with
  | .error e => .error e
  | .ok streams =>
    match foldStreams defaultResult streams with
    | .error e => .error e
    | .ok r =>
      if r.has_mvc_track = true then .ok r else mvcScan r streams

/-- `os.path.basename` (POSIX flavour): the part after the last slash. -/
def pyBasename (path : String) : String :=
  ⟨(path.data.reverse.takeWhile (fun c => c != '/')).reverse⟩

/-- SyLC.py lines 445-452 (identical at 457-464): the filename heuristic
run by both exception handlers of `analyze_file`. -/
def filenameFallback (r : AnalysisResult) (file_path : String) : AnalysisResult :=
  let filename := pyLower (pyBasename file_path)
  if containsSub "3d" filename = true ∨ containsSub "sbs" filename = true ∨
      containsSub "hsbs" filename = true then
    { r with is_3d := true, stereo_mode := "sbs" }
  else if containsSub "3d" filename = true ∧
      (containsSub "tab" filename = true ∨ containsSub "htab" filename = true) then
    { r with is_3d := true, stereo_mode := "tab" }
  else r

/-- SyLC.py lines 328-331: the FileNotFoundError message raised when
ffprobe cannot be resolved. -/
def ffprobeNotFoundMsg : String :=
  "ffprobe not found. Add ffprobe to the PATH or place ffprobe.exe in the same folder as SyLC_3D_GUI.py."

/-- SyLC.py lines 224-229: the message built by `_check_ffmpeg_runtime`
when required DLLs are missing next to the resolved tool. -/
def runtimeMissingMsg (missing : List String) : String :=
  "ffmpeg/ffprobe found but the following DLLs are missing in the same folder: " ++
    String.intercalate ", " missing ++
    ". Copy all DLLs provided with ffmpeg (from the /bin directory of the archive) next to the executables, or install a full static build."

/-- SyLC.py lines 188-203: `_describe_windows_returncode`. -/
def _describe_windows_returncode (returncode : Int) : Option String :=
  if returncode = 3221225781 ∨ returncode = -1073741515 then
    some "Failed to start the executable (code 0xC0000135). This usually indicates that DLLs for ffmpeg/ffprobe are missing. Download a static build of ffmpeg from https://www.gyan.dev/ffmpeg/builds/ and place ffmpeg.exe/ffprobe.exe and their DLLs in the application folder, or add the ffmpeg /bin folder to your PATH."
  else if returncode = 3221225501 ∨ returncode = -1073741795 then
    some "The system prevented ffmpeg/ffprobe from running (code 0xC0000025). Check your antivirus or try running the application with sufficient privileges."
  else none

/-- The text of `str(e)` for a `subprocess.CalledProcessError` (CPython
formats the command and exit status; the command text is abbreviated to
the probed path here, only its non-emptiness matters downstream). -/
def calledProcessErrorStr (file_path : String) (returncode : Int) : String :=
  "Command with input " ++ file_path ++ " returned non-zero exit status " ++
    toString returncode ++ "."

/-- The text of `str(e)` for a `json.JSONDecodeError` (CPython formats
`msg: line L column C (char P)`). -/
def jsonDecodeErrorStr (msg : String) (lineno colno pos : Nat) : String :=
  msg ++ ": line " ++ toString lineno ++ " column " ++ toString colno ++
    " (char " ++ toString pos ++ ")"

/-- SyLC.py lines 433-443: the diagnostic recorded by the
`CalledProcessError` handler — the stripped stderr-or-stdout text if any,
else `str(e)`, overridden by a Windows return-code hint when one
applies. -/
def cpeDiagnostic (file_path : String) (rc : Int) (stderrText stdoutText : String) :
    String :=
  let error_output := pyStrip (pyOrStr stderrText (pyOrStr stdoutText ""))
  let message := if error_output = "" then calledProcessErrorStr file_path rc
    else error_output
  match _describe_windows_returncode rc with
  | some hint => hint
  | none => message

/-- The outcome of resolving and invoking ffprobe, as distinguished by
the error handling of `analyze_file` (SyLC.py lines 325-360 and 433-464):
tool not resolved, `_check_ffmpeg_runtime` reporting missing DLLs,
`subprocess.CalledProcessError`, `json.JSONDecodeError`, or successfully
parsed JSON output. -/
inductive ProbeOutcome where
  | toolNotFound
  | runtimeMissing (missingDlls : List String)
  | calledProcessError (returncode : Int) (stderrText stdoutText : String)
  | jsonDecodeError (msg : String) (lineno colno pos : Nat)
  | ok (data : JVal)

/-- SyLC.py lines 302-466: `Video3DAnalyzer.analyze_file`, as a function
of the probe outcome and the analyzed path.  The three caught exception
classes each yield a result with `analysis_error` set and the filename
fallback applied; an exception raised while walking parsed output (for
example `.get` on a non-object) is uncaught and surfaces as `.error`. -/
def analyze_file (probe : ProbeOutcome) (file_path : String) :
    Except PyExc AnalysisResult :=
  match probe with
  | .toolNotFound =>
      .ok (filenameFallback
        { defaultResult with analysis_error := some ffprobeNotFoundMsg } file_path)
  | .runtimeMissing missing =>
      .ok (filenameFallback
        { defaultResult with analysis_error := some (runtimeMissingMsg missing) } file_path)
  | .calledProcessError rc stderrText stdoutText =>
      .ok (filenameFallback
        { defaultResult with
            analysis_error := some (cpeDiagnostic file_path rc stderrText stdoutText) }
        file_path)
  | .jsonDecodeError msg l c p =>
      .ok (filenameFallback
        { defaultResult with analysis_error := some (jsonDecodeErrorStr msg l c p) } file_path)
  | .ok data => analyzeProbeData data

/-- A loaded `QPixmap`: `isNull` is true when loading the file failed;
`tag` only distinguishes images. -/
structure Img where
  isNull : Bool
  tag : Nat
deriving DecidableEq

/-- Python `round` (banker's rounding, ties to the even integer), used
for `cache_key = round(time_pos)`. -/
def pyRound (q : ℚ) : Int :=
  if q - ⌊q⌋ < 1/2 then ⌊q⌋
  else if 1/2 < q - ⌊q⌋ then ⌊q⌋ + 1
  else if ⌊q⌋ % 2 = 0 then ⌊q⌋ else ⌊q⌋ + 1

/-- `cache_key in self._preview_cache` / `self._preview_cache[cache_key]`:
lookup in the insertion-ordered dict, oldest entry first. -/
def cacheLookup (cache : List (Int × Img)) (k : Int) : Option Img :=
  (cache.find? (fun p => p.1 == k)).map (fun p => p.2)

/-- `self._preview_cache[cache_key] = pixmap` on an insertion-ordered
dict: an existing key keeps its position, a new key goes to the end. -/
def dictInsert (cache : List (Int × Img)) (k : Int) (v : Img) : List (Int × Img) :=
  if cache.any (fun p => p.1 == k) then
    cache.map (fun p => if p.1 == k then (k, v) else p)
  else cache ++ [(k, v)]

/-- SyLC.py lines 639-642: the cache write of `_on_extraction_done` —
when more than 100 entries are present, delete the oldest-inserted one,
then store the new pixmap. -/
def cacheEvictPut (cache : List (Int × Img)) (k : Int) (v : Img) : List (Int × Img) :=
  dictInsert (if cache.length > 100 then cache.drop 1 else cache) k v

/-- SyLC.py line 32 onward in the data model: an extraction job submitted
to the thumbnail worker pool, identified by its requested timestamp. -/
structure ExtractionJob where
  timestamp : ℚ
deriving DecidableEq

/-- The state of a `TimeSlider` (SyLC.py lines 536-551), restricted to
the fields driving the preview scheduler, plus the observable outputs:
the image currently shown by the preview widget and the list of
extraction jobs submitted so far.  Hover time positions are taken as the
time value under the cursor (the pixel-to-seconds conversion of
`mouseMoveEvent` is left to the event). -/
structure SliderState where
  video_file : Bool
  slider_has_range : Bool
  hover_time : ℚ
  is_hovering : Bool
  last_preview_time : ℚ
  cache : List (Int × Img)
  timer_active : Bool
  pending_time : ℚ
  pending_mouse_x : ℚ
  shown : Option Img
  jobs : List ExtractionJob

/-- A freshly constructed `TimeSlider` after `set_video_file`
(`__init__` fields, SyLC.py lines 536-551 and 588-591). -/
def initSlider (videoLoaded : Bool) : SliderState :=
  { video_file := videoLoaded, slider_has_range := videoLoaded,
    hover_time := 0, is_hovering := false, last_preview_time := -99,
    cache := [], timer_active := false, pending_time := 0,
    pending_mouse_x := 0, shown := none, jobs := [] }

/-- SyLC.py lines 593-610: `_request_on_demand_preview` — serve a cache
hit immediately, otherwise record the pending position and (re)start the
100 ms single-shot debounce timer. -/
def _request_on_demand_preview (st : SliderState) (time_pos mouse_x : ℚ) : SliderState :=
  match cacheLookup st.cache (pyRound time_pos) with
  | some pixmap =>
      if pixmap.isNull = false then { st with shown := some pixmap }
      else { st with pending_time := time_pos, pending_mouse_x := mouse_x,
                     timer_active := true }
  | none => { st with pending_time := time_pos, pending_mouse_x := mouse_x,
                      timer_active := true }

/-- SyLC.py lines 562-586: the preview-relevant part of `mouseMoveEvent` —
update the hover state, and when a video is set and the position is more
than 0.5 s away from the last dispatched one, record it and request a
preview. -/
def mouseMoveEvent (st : SliderState) (time_pos mouse_x : ℚ) : SliderState :=
  if st.slider_has_range = true then
    let st1 := { st with hover_time := time_pos, is_hovering := true }
    if st1.video_file = true ∧ 1/2 < |time_pos - st1.last_preview_time| then
      _request_on_demand_preview { st1 with last_preview_time := time_pos } time_pos mouse_x
    else st1
  else st

/-- SyLC.py lines 612-619: the single-shot debounce timer firing
(`_do_extraction`): submit one extraction job for the pending time. -/
def timerFire (st : SliderState) : SliderState :=
  if st.timer_active = true then
    { st with timer_active := false,
              jobs := st.jobs ++ [⟨st.pending_time⟩] }
  else st

/-- Observable outcome of `_on_extraction_done`: the new state, whether
the image was published to the preview widget, and whether deletion of
the temporary file was performed. -/
structure ExtractionDoneResult where
  state : SliderState
  published : Bool
  temp_file_deleted : Bool

/-- SyLC.py lines 630-655: `_on_extraction_done` — load the image, cache
it under `round(time_pos)` (evicting the oldest entry past 100), publish
only when hovering is still active within 3 s of the requested time, and
remove the temporary file in every case. -/
def _on_extraction_done (st : SliderState) (time_pos : ℚ) (loaded : Img) :
    ExtractionDoneResult :=
  if loaded.isNull = false then
    let st1 := { st with cache := cacheEvictPut st.cache (pyRound time_pos) loaded }
    if st1.is_hovering = true ∧ |time_pos - st1.hover_time| < 3 then
      { state := { st1 with shown := some loaded }, published := true,
        temp_file_deleted := true }
    else
      { state := st1, published := false, temp_file_deleted := true }
  else
    { state := st, published := false, temp_file_deleted := true }

/-- The outcome of `subprocess.run` inside `_extract_thumbnail_ffmpeg`:
the 2-second timeout expired, some other exception was raised (swallowed
by the bare `except`), or the process completed with an exit code. -/
inductive RunOutcome where
  | timeoutExpired
  | raisedOther
  | completed (returncode : Int)
deriving DecidableEq

/-- SyLC.py lines 472-506: `_extract_thumbnail_ffmpeg`, as a function of
the tool resolution, the generated temporary path, the process outcome
and whether the output file exists afterwards.  Every failure returns
`none`; the bare `except` swallows the timeout and any other error. -/
def _extract_thumbnail_ffmpeg (ffmpeg_path : Option String) (temp_file : String)
    (run : RunOutcome) (temp_exists : Bool) : Option String :=
  match ffmpeg_path with
  | none => none
  | some _ =>
    match run with
    | .timeoutExpired => none
    | .raisedOther => none
    | .completed rc =>
        if rc = 0 ∧ temp_exists = true then some temp_file else none

/-- Does a probe outcome land in one of the exception handlers of
`analyze_file` (every constructor except successfully parsed output)? -/
def probeFailed : ProbeOutcome → Bool
  | .ok _ => false
  | _ => true

/-- The three-field invariant established by the resolution override. -/
def MvcLocked (r : AnalysisResult) : Prop :=
  r.is_3d = true ∧ r.stereo_mode = "mvc" ∧ r.has_mvc_track = true

/-- A stream descriptor that is a video stream with a frame-packed
resolution. -/
def FPVideoStream (s : JVal) : Prop :=
  ∃ fs, s = .jobj fs ∧ pyEqStr (objGet fs "codec_type") "video" = true ∧
    fpOf fs = true

/-- A sample non-null image used by concrete scenarios. -/
def sampleImg : Img := { isNull := false, tag := 0 }

/-- Concrete metadata for the resolution-override scenario: one video
stream at 1920 x 2205. -/
def fpStream : JVal :=
  .jobj [("codec_type", .jstr "video"), ("width", .jnum 1920), ("height", .jnum 2205)]

/-- Probe data wrapping `fpStream`. -/
def fpData : JVal := .jobj [("streams", .jarr [fpStream])]

/-- The result of analyzing `fpData`. -/
def fpResult : AnalysisResult :=
  { is_3d := true, stereo_mode := "mvc", has_mvc_track := true,
    width := .jnum 1920, height := .jnum 2205, analysis_error := none }

/-- Concrete metadata for the tag-versus-side-data scenario of C3: a
non-frame-packed video stream carrying the tag `STEREO_MODE=top_bottom`
and the side-data entry `{type: Stereo3D, layout: side_by_side}`. -/
def tagSideStream : JVal :=
  .jobj [("codec_type", .jstr "video"), ("width", .jnum 1920), ("height", .jnum 1080),
    ("tags", .jobj [("STEREO_MODE", .jstr "top_bottom")]),
    ("side_data_list", .jarr [.jobj [("type", .jstr "Stereo3D"),
      ("layout", .jstr "side_by_side")]])]

/-- Probe data wrapping `tagSideStream`. -/
def tagSideData : JVal := .jobj [("streams", .jarr [tagSideStream])]

/-- The result of analyzing `tagSideData`. -/
def tagSideResult : AnalysisResult :=
  { is_3d := true, stereo_mode := "tab", has_mvc_track := false,
    width := .jnum 1920, height := .jnum 1080, analysis_error := none }

/-- A slider state hovering at t = 40 with a video loaded. -/
def hoverAt40 : SliderState :=
  { initSlider true with is_hovering := true, hover_time := 40 }

/-- The debounce-collapse scenario of C7, first event: hover at 10 s on
a fresh slider. -/
def debounceS1 : SliderState := mouseMoveEvent (initSlider true) 10 50

/-- Second event of the scenario: hover at 10.05 s. -/
def debounceS2 : SliderState := mouseMoveEvent debounceS1 (1005/100) 51

/-- Third event of the scenario: hover at 10.09 s. -/
def debounceS3 : SliderState := mouseMoveEvent debounceS2 (1009/100) 52

/-- The debounce-collapse scenario of C7: from a fresh slider, hover
events at 10 s, 10.05 s and 10.09 s, then the debounce timer fires. -/
def debounceRun : SliderState := timerFire debounceS3

/-! ### Helper lemmas about the promotion rule -/

theorem STEREO_PRIORITY_le_three (m : String) : _STEREO_PRIORITY m ≤ 3 := by
  unfold _STEREO_PRIORITY
  split
  · omega
  · split
    · omega
    · split
      · omega
      · split
        · omega
        · split <;> omega

theorem STEREO_PRIORITY_ge_three (m : String) (h : 3 ≤ _STEREO_PRIORITY m) :
    m = "mvc" := by
  unfold _STEREO_PRIORITY at h
  split at h
  · omega
  · split at h
    · omega
    · split at h
      · omega
      · split at h
        · assumption
        · split at h <;> omega

theorem promote_stereo_mode_spec (r : AnalysisResult) (m : String) (mk : Bool)
    (h : m ≠ "") :
    (_promote_stereo_mode r m mk).stereo_mode =
      (if _STEREO_PRIORITY m ≥ _STEREO_PRIORITY r.stereo_mode then m
       else r.stereo_mode) ∧
    (_promote_stereo_mode r m mk).is_3d = true := by
  unfold _promote_stereo_mode
  rw [if_neg h]
  by_cases h2 : _STEREO_PRIORITY m ≥ _STEREO_PRIORITY r.stereo_mode <;>
    by_cases h3 : (mk : Prop) ∨ m = "mvc" <;>
      simp [h2, h3]

theorem promote_keeps_has_mvc (r : AnalysisResult) (m : String) (mk : Bool)
    (h : r.has_mvc_track = true) :
    (_promote_stereo_mode r m mk).has_mvc_track = true := by
  unfold _promote_stereo_mode
  by_cases h0 : m = "" <;>
    by_cases h2 : _STEREO_PRIORITY m ≥ _STEREO_PRIORITY r.stereo_mode <;>
      by_cases h3 : (mk : Prop) ∨ m = "mvc" <;>
        simp [h0, h2, h3, h]

theorem promote_keeps_is_3d (r : AnalysisResult) (m : String) (mk : Bool)
    (h : r.is_3d = true) :
    (_promote_stereo_mode r m mk).is_3d = true := by
  unfold _promote_stereo_mode
  by_cases h0 : m = "" <;>
    by_cases h2 : _STEREO_PRIORITY m ≥ _STEREO_PRIORITY r.stereo_mode <;>
      by_cases h3 : (mk : Prop) ∨ m = "mvc" <;>
        simp [h0, h2, h3, h]

theorem promote_keeps_mvc_mode (r : AnalysisResult) (m : String) (mk : Bool)
    (h : r.stereo_mode = "mvc") :
    (_promote_stereo_mode r m mk).stereo_mode = "mvc" := by
  by_cases h0 : m = ""
  · simp [_promote_stereo_mode, h0, h]
  · rcases promote_stereo_mode_spec r m mk h0 with ⟨he, _⟩
    rw [he, h]
    by_cases h2 : _STEREO_PRIORITY m ≥ _STEREO_PRIORITY "mvc"
    · rw [if_pos h2]
      exact STEREO_PRIORITY_ge_three m h2
    · rw [if_neg h2]

theorem promote_locked (r : AnalysisResult) (m : String) (mk : Bool)
    (h : MvcLocked r) : MvcLocked (_promote_stereo_mode r m mk) := by
  obtain ⟨h1, h2, h3⟩ := h
  exact ⟨promote_keeps_is_3d r m mk h1, promote_keeps_mvc_mode r m mk h2,
    promote_keeps_has_mvc r m mk h3⟩

/-- C2: Promotion monotonicity of `_promote_stereo_mode`: a non-empty
newly classified mode replaces `stereo_mode` exactly when its priority
(none=0, tab=1, anaglyph=1, sbs=2, mvc=3) is ≥ the current one (so ties
favour the later signal, and for two successive signals with priorities
p1 ≤ p2 dominating the current state the later one wins), and every
promotion call sets `is_3d` to true, so `is_3d` never reverts within one
analysis pass. -/
theorem promote_priority_monotone (r : AnalysisResult) (m1 m2 : String)
    (b1 b2 : Bool) (h1 : m1 ≠ "") (h2 : m2 ≠ "") :
    ((_promote_stereo_mode r m1 b1).stereo_mode =
      (if _STEREO_PRIORITY m1 ≥ _STEREO_PRIORITY r.stereo_mode then m1
       else r.stereo_mode)) ∧
    (_promote_stereo_mode r m1 b1).is_3d = true ∧
    (_STEREO_PRIORITY r.stereo_mode ≤ _STEREO_PRIORITY m1 →
      _STEREO_PRIORITY m1 ≤ _STEREO_PRIORITY m2 →
      (_promote_stereo_mode (_promote_stereo_mode r m1 b1) m2 b2).stereo_mode = m2) ∧
    _STEREO_PRIORITY "none" = 0 ∧ _STEREO_PRIORITY "tab" = 1 ∧
    _STEREO_PRIORITY "anaglyph" = 1 ∧ _STEREO_PRIORITY "sbs" = 2 ∧
    _STEREO_PRIORITY "mvc" = 3 := by
  obtain ⟨e1, e2⟩ := promote_stereo_mode_spec r m1 b1 h1
  obtain ⟨f1, _⟩ := promote_stereo_mode_spec (_promote_stereo_mode r m1 b1) m2 b2 h2
  refine ⟨e1, e2, ?_, by decide, by decide, by decide, by decide, by decide⟩
  intro hp1 hp2
  rw [f1, e1, if_pos hp1, if_pos hp2]

/-- Witness for C2 at a concrete state and mode pair. -/
theorem promote_priority_monotone_witness :
    ((_promote_stereo_mode defaultResult "tab" false).stereo_mode =
      (if _STEREO_PRIORITY "tab" ≥ _STEREO_PRIORITY defaultResult.stereo_mode then "tab"
       else defaultResult.stereo_mode)) ∧
    (_promote_stereo_mode defaultResult "tab" false).is_3d = true ∧
    (_STEREO_PRIORITY defaultResult.stereo_mode ≤ _STEREO_PRIORITY "tab" →
      _STEREO_PRIORITY "tab" ≤ _STEREO_PRIORITY "sbs" →
      (_promote_stereo_mode (_promote_stereo_mode defaultResult "tab" false)
        "sbs" false).stereo_mode = "sbs") ∧
    _STEREO_PRIORITY "none" = 0 ∧ _STEREO_PRIORITY "tab" = 1 ∧
    _STEREO_PRIORITY "anaglyph" = 1 ∧ _STEREO_PRIORITY "sbs" = 2 ∧
    _STEREO_PRIORITY "mvc" = 3 :=
  promote_priority_monotone defaultResult "tab" "sbs" false false
    (by decide) (by decide)

/-- C9: the frame-extraction worker never propagates a failure: it
returns the output path exactly when the tool was resolved, the external
process completed with exit code 0 within the timeout, and the output
file exists; in every other case (tool unresolved, timeout, other raised
error, nonzero exit, missing output file) it returns none. -/
theorem extract_thumbnail_total (tool : Option String) (tf : String)
    (run : RunOutcome) (ex : Bool) :
    (_extract_thumbnail_ffmpeg tool tf run ex = some tf ↔
      (tool ≠ none ∧ run = .completed 0 ∧ ex = true)) ∧
    (_extract_thumbnail_ffmpeg tool tf run ex = some tf ∨
      _extract_thumbnail_ffmpeg tool tf run ex = none) := by
  cases tool <;> cases run <;> simp [_extract_thumbnail_ffmpeg]

/-! ### Preservation of the resolution override through the analysis -/

theorem processSideData_locked (r r' : AnalysisResult) (sd : JVal)
    (h : processSideData r sd = .ok r') (hl : MvcLocked r) : MvcLocked r' := by
  unfold processSideData at h
  split at h
  · exact absurd h (by simp)
  · split at h
    · exact absurd h (by simp)
    · split at h
      · split at h
        · exact absurd h (by simp)
        · split at h <;> (injection h with h2; subst h2; exact promote_locked _ _ _ hl)
        · injection h with h2; subst h2; exact hl
      · injection h with h2; subst h2; exact hl

theorem foldSideData_locked (l : List JVal) :
    ∀ r r', foldSideData r l = .ok r' → MvcLocked r → MvcLocked r' := by
  induction l with
  | nil =>
    intro r r' h hl
    unfold foldSideData at h
    injection h with h2
    subst h2
    exact hl
  | cons sd rest ih =>
    intro r r' h hl
    unfold foldSideData at h
    cases hps : processSideData r sd with
    | error e => rw [hps] at h; exact absurd h (by simp)
    | ok r1 =>
      rw [hps] at h
      exact ih r1 r' h (processSideData_locked r r1 sd hps hl)

theorem processTag_locked (r r' : AnalysisResult) (kv : String × JVal)
    (h : processTag r kv = .ok r') (hl : MvcLocked r) : MvcLocked r' := by
  unfold processTag at h
  split at h
  · split at h
    · exact absurd h (by simp)
    · injection h with h2; subst h2; exact promote_locked _ _ _ hl
    · injection h with h2; subst h2; exact hl
  · injection h with h2; subst h2; exact hl

theorem foldTags_locked (l : List (String × JVal)) :
    ∀ r r', foldTags r l = .ok r' → MvcLocked r → MvcLocked r' := by
  induction l with
  | nil =>
    intro r r' h hl
    unfold foldTags at h
    injection h with h2
    subst h2
    exact hl
  | cons kv rest ih =>
    intro r r' h hl
    unfold foldTags at h
    cases hps : processTag r kv with
    | error e => rw [hps] at h; exact absurd h (by simp)
    | ok r1 =>
      rw [hps] at h
      exact ih r1 r' h (processTag_locked r r1 kv hps hl)

theorem streamBase_locked (r : AnalysisResult) (fs : List (String × JVal))
    (hl : MvcLocked r) : MvcLocked (streamBase r fs) := by
  obtain ⟨h1, h2, h3⟩ := hl
  unfold streamBase
  split
  · exact ⟨rfl, rfl, rfl⟩
  · exact ⟨h1, h2, h3⟩

theorem streamBase_establish (r : AnalysisResult) (fs : List (String × JVal))
    (hfp : fpOf fs = true) : MvcLocked (streamBase r fs) := by
  unfold streamBase
  rw [if_pos hfp]
  exact ⟨rfl, rfl, rfl⟩

theorem streamCodec_locked (r : AnalysisResult) (cn pf : String)
    (hl : MvcLocked r) : MvcLocked (streamCodec r cn pf) := by
  unfold streamCodec
  split
  · exact promote_locked _ _ _ hl
  · exact hl

theorem streamCodecDisp_locked (r : AnalysisResult) (fs : List (String × JVal))
    (cn pf : String) (hl : MvcLocked r) : MvcLocked (streamCodecDisp r fs cn pf) := by
  unfold streamCodecDisp
  split
  · exact promote_locked _ _ _ (streamCodec_locked r cn pf hl)
  · exact streamCodec_locked r cn pf hl

theorem processStream_locked (r r' : AnalysisResult) (s : JVal)
    (h : processStream r s = .ok r') (hl : MvcLocked r) : MvcLocked r' := by
  unfold processStream at h
  split at h
  · exact absurd h (by simp)
  · split at h
    · split at h
      · exact absurd h (by simp)
      · split at h
        · exact absurd h (by simp)
        · split at h
          · injection h with h2
            subst h2
            exact streamCodecDisp_locked _ _ _ _ (streamBase_locked r _ hl)
          · split at h
            · exact absurd h (by simp)
            · split at h
              · exact absurd h (by simp)
              · split at h
                · exact absurd h (by simp)
                · rename_i x1 r4 hfold x2 tagItems htags
                  exact foldTags_locked _ _ _ h
                    (foldSideData_locked _ _ _ hfold
                      (streamCodecDisp_locked _ _ _ _ (streamBase_locked r _ hl)))
    · injection h with h2; subst h2; exact hl

theorem processStream_establish (r r' : AnalysisResult) (fs : List (String × JVal))
    (h : processStream r (.jobj fs) = .ok r')
    (hv : pyEqStr (objGet fs "codec_type") "video" = true)
    (hfp : fpOf fs = true) : MvcLocked r' := by
  unfold processStream at h
  split at h
  · rename_i e heq
    exact absurd heq (by simp [asObj])
  · rename_i fs2 heq
    have hfs : fs = fs2 := by
      simpa [asObj] using heq
    subst hfs
    rw [if_pos hv] at h
    split at h
    · exact absurd h (by simp)
    · split at h
      · exact absurd h (by simp)
      · split at h
        · injection h with h2
          subst h2
          exact streamCodecDisp_locked _ _ _ _ (streamBase_establish r fs hfp)
        · rename_i hnfp
          exact absurd hfp hnfp

theorem foldStreams_locked (l : List JVal) :
    ∀ r r', foldStreams r l = .ok r' → MvcLocked r → MvcLocked r' := by
  induction l with
  | nil =>
    intro r r' h hl
    unfold foldStreams at h
    injection h with h2
    subst h2
    exact hl
  | cons s rest ih =>
    intro r r' h hl
    unfold foldStreams at h
    cases hps : processStream r s with
    | error e => rw [hps] at h; exact absurd h (by simp)
    | ok r1 =>
      rw [hps] at h
      exact ih r1 r' h (processStream_locked r r1 s hps hl)

theorem foldStreams_establish (l : List JVal) :
    ∀ r r', foldStreams r l = .ok r' → (∃ s ∈ l, FPVideoStream s) →
      MvcLocked r' := by
  induction l with
  | nil =>
    intro r r' _ hex
    obtain ⟨s, hs, _⟩ := hex
    exact absurd hs (List.not_mem_nil s)
  | cons s0 rest ih =>
    intro r r' h hex
    unfold foldStreams at h
    cases hps : processStream r s0 with
    | error e => rw [hps] at h; exact absurd h (by simp)
    | ok r1 =>
      rw [hps] at h
      obtain ⟨s, hs, hfpv⟩ := hex
      rcases List.mem_cons.mp hs with heq | hmem
      · subst heq
        obtain ⟨fs, hobj, hvid, hfp⟩ := hfpv
        subst hobj
        exact foldStreams_locked rest r1 r' h
          (processStream_establish r r1 fs hps hvid hfp)
      · exact ih r1 r' h ⟨s, hmem, hfpv⟩

/-- C1: the resolution override is absolute — whenever `analyze_file`
returns a result on parsed metadata containing a video stream whose
`(width, height)` is (1920, 2205), (1920, 2160) or (3840, 4320), that
result has `is_3d = true`, `stereo_mode = "mvc"` and
`has_mvc_track = true`, regardless of the tags or side-data entries (or
any other content) of any stream. -/
theorem resolution_override_absolute (data : JVal) (path : String)
    (r : AnalysisResult) (streams : List JVal) (s : JVal)
    (fs : List (String × JVal)) (w h : Int)
    (hok : analyze_file (.ok data) path = .ok r)
    (hstreams : streamsOf data = .ok streams)
    (hmem : s ∈ streams)
    (hobj : s = .jobj fs)
    (hvid : pyEqStr (objGet fs "codec_type") "video" = true)
    (hw : objGetD fs "width" (.jnum 0) = .jnum w)
    (hh : objGetD fs "height" (.jnum 0) = .jnum h)
    (hdims : (w = 1920 ∧ h = 2205) ∨ (w = 1920 ∧ h = 2160) ∨
      (w = 3840 ∧ h = 4320)) :
    r.is_3d = true ∧ r.stereo_mode = "mvc" ∧ r.has_mvc_track = true := by
  have hfp : fpOf fs = true := by
    unfold fpOf
    rw [hw, hh]
    rcases hdims with ⟨hw1, hh1⟩ | ⟨hw1, hh1⟩ | ⟨hw1, hh1⟩ <;>
      subst hw1 <;> subst hh1 <;> decide
  have hok2 : analyzeProbeData data = .ok r := hok
  unfold analyzeProbeData at hok2
  split at hok2
  · exact absurd hok2 (by simp)
  · rename_i streams2 heq
    rw [hstreams] at heq
    injection heq with heq2
    subst heq2
    split at hok2
    · exact absurd hok2 (by simp)
    · rename_i r0 hfold
      have hl : MvcLocked r0 :=
        foldStreams_establish streams defaultResult r0 hfold
          ⟨s, hmem, fs, hobj, hvid, hfp⟩
      rw [if_pos hl.2.2] at hok2
      injection hok2 with h2
      subst h2
      exact hl

/-- Witness for C1 on concrete one-stream 1920 x 2205 metadata. -/
theorem resolution_override_absolute_witness :
    analyze_file (.ok fpData) "movie.mkv" = .ok fpResult ∧
    streamsOf fpData = .ok [fpStream] ∧
    fpStream ∈ [fpStream] ∧
    (fpResult.is_3d = true ∧ fpResult.stereo_mode = "mvc" ∧
      fpResult.has_mvc_track = true) :=
  ⟨rfl, rfl, List.mem_singleton.mpr rfl,
    resolution_override_absolute fpData "movie.mkv" fpResult [fpStream] fpStream
      [("codec_type", .jstr "video"), ("width", .jnum 1920), ("height", .jnum 2205)]
      1920 2205 rfl rfl (List.mem_singleton.mpr rfl) rfl rfl rfl rfl
      (Or.inl ⟨rfl, rfl⟩)⟩

/-! ### The probing-failure paths -/

theorem string_append_ne_left (a b : String) (ha : a ≠ "") : a ++ b ≠ "" := by
  intro h
  have hd := congrArg String.data h
  rw [String.data_append] at hd
  have h2 : a.data = [] ∧ b.data = [] := List.append_eq_nil.mp hd
  exact ha (by cases a; simp_all)

theorem string_append_ne_right (a b : String) (hb : b ≠ "") : a ++ b ≠ "" := by
  intro h
  have hd := congrArg String.data h
  rw [String.data_append] at hd
  have h2 : a.data = [] ∧ b.data = [] := List.append_eq_nil.mp hd
  exact hb (by cases b; simp_all)

theorem runtimeMissingMsg_ne (missing : List String) : runtimeMissingMsg missing ≠ "" := by
  unfold runtimeMissingMsg
  exact string_append_ne_right _ _ (by decide)

theorem calledProcessErrorStr_ne (p : String) (rc : Int) :
    calledProcessErrorStr p rc ≠ "" := by
  unfold calledProcessErrorStr
  exact string_append_ne_right _ _ (by decide)

theorem jsonDecodeErrorStr_ne (m : String) (l c p : Nat) :
    jsonDecodeErrorStr m l c p ≠ "" := by
  unfold jsonDecodeErrorStr
  exact string_append_ne_right _ _ (by decide)

theorem cpeDiagnostic_ne (p : String) (rc : Int) (se so : String) :
    cpeDiagnostic p rc se so ≠ "" := by
  simp only [cpeDiagnostic]
  split
  · rename_i hint heq
    unfold _describe_windows_returncode at heq
    split at heq
    · injection heq with h2
      subst h2
      decide
    · split at heq
      · injection heq with h2
        subst h2
        decide
      · exact absurd heq (by simp)
  · split
    · exact calledProcessErrorStr_ne p rc
    · rename_i hne
      exact hne

/-- On every failure outcome, `analyze_file` returns the filename
fallback of the default result with a non-empty diagnostic recorded. -/
theorem analyze_failure_eq (probe : ProbeOutcome) (path : String)
    (h : probeFailed probe = true) :
    ∃ msg, msg ≠ "" ∧ analyze_file probe path =
      .ok (filenameFallback
        { defaultResult with analysis_error := some msg } path) := by
  cases probe with
  | toolNotFound => exact ⟨ffprobeNotFoundMsg, by decide, rfl⟩
  | runtimeMissing m => exact ⟨runtimeMissingMsg m, runtimeMissingMsg_ne m, rfl⟩
  | calledProcessError rc se so =>
      exact ⟨cpeDiagnostic path rc se so, cpeDiagnostic_ne path rc se so, rfl⟩
  | jsonDecodeError m l c p =>
      exact ⟨jsonDecodeErrorStr m l c p, jsonDecodeErrorStr_ne m l c p, rfl⟩
  | ok data => exact absurd h (by simp [probeFailed])

theorem fallback_analysis_error (r : AnalysisResult) (path : String) :
    (filenameFallback r path).analysis_error = r.analysis_error := by
  simp only [filenameFallback]
  split_ifs <;> rfl

theorem fallback_mode_cases (r : AnalysisResult) (path : String) :
    (filenameFallback r path).stereo_mode = "sbs" ∨
    (filenameFallback r path).stereo_mode = r.stereo_mode := by
  simp only [filenameFallback]
  split_ifs with h1 h2
  · exact Or.inl rfl
  · exact absurd (Or.inl h2.1) h1
  · exact Or.inr rfl

theorem fallback_sbs (r : AnalysisResult) (path : String)
    (hname : containsSub "3d" (pyLower (pyBasename path)) = true ∨
      containsSub "sbs" (pyLower (pyBasename path)) = true ∨
      containsSub "hsbs" (pyLower (pyBasename path)) = true) :
    filenameFallback r path = { r with is_3d := true, stereo_mode := "sbs" } := by
  simp only [filenameFallback]
  rw [if_pos hname]

/-- C3 counterexample: on a stream with tag `STEREO_MODE=top_bottom` and
side-data `{type: Stereo3D, layout: side_by_side}` the analyzer does NOT
return `stereo_mode = "sbs"`. -/
theorem sidedata_tag_scenario_cex :
    analyze_file (.ok tagSideData) "movie.mkv" = .ok tagSideResult ∧
    tagSideResult.stereo_mode ≠ "sbs" :=
  ⟨rfl, by decide⟩

/-- C3 amended: on that input the side-data mode string is extracted in
the order stereo_mode, type, layout, view, so the truthy `type` field
`"Stereo3D"` is picked, classifies to no mode, and the side-data entry
promotes nothing; the tag signal `top_bottom` (tab) is the only
classified signal and the final `stereo_mode` is `"tab"`. -/
theorem sidedata_tag_scenario_amended :
    analyze_file (.ok tagSideData) "movie.mkv" = .ok tagSideResult ∧
    tagSideResult.stereo_mode = "tab" ∧ tagSideResult.is_3d = true ∧
    _classify_stereo_mode (.jstr "Stereo3D") = .ok none ∧
    classifyStr "top_bottom" = some "tab" :=
  ⟨rfl, rfl, rfl, rfl, rfl⟩

/-- C4 counterexample: on a probing failure with filename
`movie_3d_tab.mkv` the result is `stereo_mode = "sbs"`, not `"tab"` as
the claim states. -/
theorem filename_fallback_tab_cex :
    analyze_file .toolNotFound "movie_3d_tab.mkv" =
      .ok { defaultResult with
            is_3d := true, stereo_mode := "sbs",
            analysis_error := some ffprobeNotFoundMsg } ∧
    ("sbs" : String) ≠ "tab" :=
  ⟨rfl, by decide⟩

/-- C4 amended: whenever probing fails, a basename containing `3d`,
`sbs` or `hsbs` yields `{is_3d: true, stereo_mode: sbs}`; in particular
both `movie_3d_sbs.mkv` and `movie_3d_tab.mkv` yield `sbs` (the `tab`
branch is shadowed by the `3d` test of the first branch). -/
theorem filename_fallback_amended (probe : ProbeOutcome) (path : String)
    (h : probeFailed probe = true)
    (hname : containsSub "3d" (pyLower (pyBasename path)) = true ∨
      containsSub "sbs" (pyLower (pyBasename path)) = true ∨
      containsSub "hsbs" (pyLower (pyBasename path)) = true) :
    (∃ res, analyze_file probe path = .ok res ∧
      res.is_3d = true ∧ res.stereo_mode = "sbs") ∧
    analyze_file .toolNotFound "movie_3d_sbs.mkv" =
      .ok { defaultResult with
            is_3d := true, stereo_mode := "sbs",
            analysis_error := some ffprobeNotFoundMsg } ∧
    analyze_file .toolNotFound "movie_3d_tab.mkv" =
      .ok { defaultResult with
            is_3d := true, stereo_mode := "sbs",
            analysis_error := some ffprobeNotFoundMsg } := by
  obtain ⟨msg, hne, heq⟩ := analyze_failure_eq probe path h
  rw [fallback_sbs _ _ hname] at heq
  exact ⟨⟨_, heq, rfl, rfl⟩, rfl, rfl⟩

/-- Witness for C4 (amended) at `toolNotFound` and `movie_3d_sbs.mkv`. -/
theorem filename_fallback_amended_witness :
    probeFailed .toolNotFound = true ∧
    (containsSub "3d" (pyLower (pyBasename "movie_3d_sbs.mkv")) = true ∨
      containsSub "sbs" (pyLower (pyBasename "movie_3d_sbs.mkv")) = true ∨
      containsSub "hsbs" (pyLower (pyBasename "movie_3d_sbs.mkv")) = true) ∧
    ((∃ res, analyze_file .toolNotFound "movie_3d_sbs.mkv" = .ok res ∧
      res.is_3d = true ∧ res.stereo_mode = "sbs") ∧
    analyze_file .toolNotFound "movie_3d_sbs.mkv" =
      .ok { defaultResult with
            is_3d := true, stereo_mode := "sbs",
            analysis_error := some ffprobeNotFoundMsg } ∧
    analyze_file .toolNotFound "movie_3d_tab.mkv" =
      .ok { defaultResult with
            is_3d := true, stereo_mode := "sbs",
            analysis_error := some ffprobeNotFoundMsg }) :=
  ⟨rfl, Or.inl rfl,
    filename_fallback_amended .toolNotFound "movie_3d_sbs.mkv" rfl (Or.inl rfl)⟩

/-- C5 counterexample: probing "succeeds" with the non-object JSON value
`null`; `data.get('streams', [])` then raises AttributeError, which no
handler of `analyze_file` catches, so the call raises instead of
returning a result. -/
theorem analyzer_totality_cex :
    analyze_file (.ok .jnull) "movie.mkv" = .error .attributeError := rfl

/-- C5 amended: on every probing-failure outcome (tool missing, runtime
DLLs missing, nonzero exit, malformed JSON), `analyze_file` returns a
well-formed result whose `analysis_error` is a non-empty diagnostic; but
totality does not extend to successfully parsed non-object probe output,
where the stream walk raises an uncaught exception. -/
theorem analyzer_totality_amended (probe : ProbeOutcome) (path : String)
    (h : probeFailed probe = true) :
    ∃ res msg, analyze_file probe path = .ok res ∧
      res.analysis_error = some msg ∧ msg ≠ "" := by
  obtain ⟨msg, hne, heq⟩ := analyze_failure_eq probe path h
  exact ⟨_, msg, heq, fallback_analysis_error _ _, hne⟩

/-- Witness for C5 (amended) at `toolNotFound`. -/
theorem analyzer_totality_amended_witness :
    probeFailed .toolNotFound = true ∧
    (∃ res msg, analyze_file .toolNotFound "movie.mkv" = .ok res ∧
      res.analysis_error = some msg ∧ msg ≠ "") :=
  ⟨rfl, analyzer_totality_amended .toolNotFound "movie.mkv" rfl⟩

/-- C10: the `tab` branch of the filename fallback is unreachable — its
guard requires `3d` in the name, which already satisfies the first
branch — so the fallback either forces `sbs` or leaves the mode
unchanged, and on every probing failure the returned `stereo_mode` is
either `"sbs"` or the default `"none"`. -/
theorem fallback_tab_unreachable (probe : ProbeOutcome) (path : String)
    (r : AnalysisResult) (h : probeFailed probe = true) :
    ((filenameFallback r path).stereo_mode = "sbs" ∨
      (filenameFallback r path).stereo_mode = r.stereo_mode) ∧
    (∃ res, analyze_file probe path = .ok res ∧
      (res.stereo_mode = "sbs" ∨ res.stereo_mode = "none")) := by
  refine ⟨fallback_mode_cases r path, ?_⟩
  obtain ⟨msg, hne, heq⟩ := analyze_failure_eq probe path h
  refine ⟨_, heq, ?_⟩
  rcases fallback_mode_cases
      { defaultResult with analysis_error := some msg } path with hm | hm
  · exact Or.inl hm
  · exact Or.inr hm

/-- Witness for C10 at `toolNotFound` and `movie_3d_tab.mkv`. -/
theorem fallback_tab_unreachable_witness :
    probeFailed .toolNotFound = true ∧
    (((filenameFallback defaultResult "movie_3d_tab.mkv").stereo_mode = "sbs" ∨
      (filenameFallback defaultResult "movie_3d_tab.mkv").stereo_mode =
        defaultResult.stereo_mode) ∧
    (∃ res, analyze_file .toolNotFound "movie_3d_tab.mkv" = .ok res ∧
      (res.stereo_mode = "sbs" ∨ res.stereo_mode = "none"))) :=
  ⟨rfl, fallback_tab_unreachable .toolNotFound "movie_3d_tab.mkv" defaultResult rfl⟩

/-! ### The preview cache -/

theorem cacheLookup_map_self (k : Int) (v : Img) :
    ∀ c : List (Int × Img), c.any (fun q => q.1 == k) = true →
      cacheLookup (c.map (fun q => if q.1 == k then (k, v) else q)) k = some v := by
  intro c
  induction c with
  | nil => intro h; simp at h
  | cons p rest ih =>
    intro h
    by_cases hp : (p.1 == k) = true
    · simp [cacheLookup, List.find?, hp]
    · have hr : rest.any (fun q => q.1 == k) = true := by
        simpa [List.any_cons, hp] using h
      have ihr := ih hr
      simp only [cacheLookup] at ihr ⊢
      simpa [List.find?, hp] using ihr

theorem cacheLookup_append_self (k : Int) (v : Img) :
    ∀ c : List (Int × Img), c.any (fun q => q.1 == k) = false →
      cacheLookup (c ++ [(k, v)]) k = some v := by
  intro c
  induction c with
  | nil => intro _; simp [cacheLookup, List.find?]
  | cons p rest ih =>
    intro h
    rw [List.any_cons, Bool.or_eq_false_iff] at h
    obtain ⟨hp, hr⟩ := h
    have ihr := ih hr
    simp only [cacheLookup] at ihr ⊢
    simpa [List.find?, hp] using ihr

theorem cacheLookup_dictInsert_self (c : List (Int × Img)) (k : Int) (v : Img) :
    cacheLookup (dictInsert c k v) k = some v := by
  unfold dictInsert
  cases hany : c.any (fun q => q.1 == k) with
  | true =>
    rw [if_pos rfl]
    exact cacheLookup_map_self k v c hany
  | false =>
    rw [if_neg (by simp)]
    exact cacheLookup_append_self k v c hany

theorem dictInsert_length_le (c : List (Int × Img)) (k : Int) (v : Img) :
    (dictInsert c k v).length ≤ c.length + 1 := by
  unfold dictInsert
  split
  · simp
  · simp

set_option maxRecDepth 100000 in
/-- C6 counterexample: inserting 101 distinct keys into the empty cache
through the write of `_on_extraction_done` leaves 101 entries — not
100 — and the first-inserted key is still present. -/
theorem cache_capacity_cex :
    ((List.range 101).foldl (fun c k => cacheEvictPut c (Int.ofNat k) sampleImg) []).length
      = 101 ∧
    cacheLookup
      ((List.range 101).foldl (fun c k => cacheEvictPut c (Int.ofNat k) sampleImg) []) 0
      = some sampleImg :=
  ⟨rfl, rfl⟩

set_option maxRecDepth 100000 in
/-- C6 amended: the cache write keeps at most 101 entries (the eviction
threshold `len > 100` admits one more than 100), eviction removes the
single oldest-inserted entry (FIFO), the written key is always present
afterwards, and inserting 102 distinct keys into an empty cache leaves
exactly 101 entries with the first-inserted key absent and the 2nd
through 102nd present. -/
theorem cache_capacity_amended (cache : List (Int × Img)) (k : Int) (v : Img)
    (h : cache.length ≤ 101) :
    (cacheEvictPut cache k v).length ≤ 101 ∧
    cacheLookup (cacheEvictPut cache k v) k = some v ∧
    ((List.range 102).foldl (fun c i => cacheEvictPut c (Int.ofNat i) sampleImg) []).length
      = 101 ∧
    cacheLookup
      ((List.range 102).foldl (fun c i => cacheEvictPut c (Int.ofNat i) sampleImg) []) 0
      = none ∧
    ((List.range 101).all (fun i =>
      (cacheLookup
        ((List.range 102).foldl (fun c i2 => cacheEvictPut c (Int.ofNat i2) sampleImg) [])
        (Int.ofNat (i + 1))).isSome)) = true := by
  refine ⟨?_, cacheLookup_dictInsert_self _ _ _, rfl, rfl, rfl⟩
  unfold cacheEvictPut
  by_cases hlen : cache.length > 100
  · rw [if_pos hlen]
    calc (dictInsert (cache.drop 1) k v).length ≤ (cache.drop 1).length + 1 :=
          dictInsert_length_le _ _ _
      _ ≤ 101 := by rw [List.length_drop]; omega
  · rw [if_neg hlen]
    have := dictInsert_length_le cache k v
    omega

set_option maxRecDepth 100000 in
/-- Witness for C6 (amended) at the empty cache. -/
theorem cache_capacity_amended_witness :
    ([] : List (Int × Img)).length ≤ 101 ∧
    ((cacheEvictPut [] 0 sampleImg).length ≤ 101 ∧
    cacheLookup (cacheEvictPut [] 0 sampleImg) 0 = some sampleImg ∧
    ((List.range 102).foldl (fun c i => cacheEvictPut c (Int.ofNat i) sampleImg) []).length
      = 101 ∧
    cacheLookup
      ((List.range 102).foldl (fun c i => cacheEvictPut c (Int.ofNat i) sampleImg) []) 0
      = none ∧
    ((List.range 101).all (fun i =>
      (cacheLookup
        ((List.range 102).foldl (fun c i2 => cacheEvictPut c (Int.ofNat i2) sampleImg) [])
        (Int.ofNat (i + 1))).isSome)) = true) :=
  ⟨by simp, cache_capacity_amended [] 0 sampleImg (by simp)⟩

/-! ### The hover scheduler -/

theorem mouseMoveEvent_req (st : SliderState) (t x : ℚ)
    (hr : st.slider_has_range = true) (hv : st.video_file = true)
    (hth : 1/2 < |t - st.last_preview_time|)
    (hmiss : cacheLookup st.cache (pyRound t) = none) :
    mouseMoveEvent st t x =
      { st with hover_time := t, is_hovering := true, last_preview_time := t,
                pending_time := t, pending_mouse_x := x, timer_active := true } := by
  unfold mouseMoveEvent
  rw [if_pos hr, if_pos (And.intro hv hth)]
  unfold _request_on_demand_preview
  split
  · rename_i img heq
    rw [hmiss] at heq
    exact absurd heq (by simp)
  · rfl

theorem mouseMoveEvent_still (st : SliderState) (t x : ℚ)
    (hr : st.slider_has_range = true)
    (hsup : ¬(st.video_file = true ∧ 1/2 < |t - st.last_preview_time|)) :
    mouseMoveEvent st t x = { st with hover_time := t, is_hovering := true } := by
  unfold mouseMoveEvent
  rw [if_pos hr, if_neg hsup]

theorem timerFire_go (st : SliderState) (ht : st.timer_active = true) :
    timerFire st = { st with timer_active := false,
                             jobs := st.jobs ++ [⟨st.pending_time⟩] } := by
  unfold timerFire
  rw [if_pos ht]

theorem abs_sub_small_0505 : ¬((1/2 : ℚ) < |(1005/100 : ℚ) - 10|) := by
  push_neg
  rw [abs_le]
  constructor <;> norm_num

theorem abs_sub_small_0509 : ¬((1/2 : ℚ) < |(1009/100 : ℚ) - 10|) := by
  push_neg
  rw [abs_le]
  constructor <;> norm_num

theorem debounceS1_eq : debounceS1 =
    { initSlider true with
      hover_time := 10, is_hovering := true, last_preview_time := 10,
      pending_time := 10, pending_mouse_x := 50, timer_active := true } :=
  mouseMoveEvent_req (initSlider true) 10 50 rfl rfl
    (by show (1/2 : ℚ) < |10 - (-99 : ℚ)|; norm_num) rfl

theorem debounceS2_eq : debounceS2 =
    { debounceS1 with hover_time := 1005/100, is_hovering := true } :=
  mouseMoveEvent_still debounceS1 (1005/100) 51 (by rw [debounceS1_eq]; rfl)
    (by rintro ⟨-, hab⟩
        rw [show debounceS1.last_preview_time = 10 by rw [debounceS1_eq]] at hab
        exact abs_sub_small_0505 hab)

theorem debounceS3_eq : debounceS3 =
    { debounceS2 with hover_time := 1009/100, is_hovering := true } :=
  mouseMoveEvent_still debounceS2 (1009/100) 52
    (by rw [debounceS2_eq, debounceS1_eq]; rfl)
    (by rintro ⟨-, hab⟩
        rw [show debounceS2.last_preview_time = 10 by
          rw [debounceS2_eq, debounceS1_eq]] at hab
        exact abs_sub_small_0509 hab)

theorem debounceRun_jobs : debounceRun.jobs = [⟨10⟩] := by
  unfold debounceRun
  rw [timerFire_go debounceS3
    (by rw [debounceS3_eq, debounceS2_eq, debounceS1_eq])]
  rw [show debounceS3.jobs = [] by
        rw [debounceS3_eq, debounceS2_eq, debounceS1_eq]; rfl,
      show debounceS3.pending_time = 10 by
        rw [debounceS3_eq, debounceS2_eq, debounceS1_eq]]
  rfl

/-- C7 counterexample: after hover events at 10, 10.05 and 10.09 on a
fresh slider and the debounce timer firing, exactly one extraction job
exists and its timestamp is 10, not 10.09 — the later hovers are within
0.5 s of the last dispatched position and never reach the debounce. -/
theorem debounce_collapse_cex :
    debounceRun.jobs.map ExtractionJob.timestamp = [10] ∧ (10 : ℚ) ≠ 1009/100 := by
  refine ⟨?_, by norm_num⟩
  rw [debounceRun_jobs]
  rfl

/-- C7 amended: a hover event farther than 0.5 s from the last
dispatched position that misses the cache replaces the pending values
and (re)starts the debounce timer; in the 10 / 10.05 / 10.09 scenario
the two later events are suppressed by the 0.5 s threshold, so the timer
firing produces exactly one ExtractionJob, with timestamp 10.0. -/
theorem debounce_collapse_amended (st : SliderState) (t x : ℚ)
    (hr : st.slider_has_range = true) (hv : st.video_file = true)
    (hth : 1/2 < |t - st.last_preview_time|)
    (hmiss : cacheLookup st.cache (pyRound t) = none) :
    (mouseMoveEvent st t x).pending_time = t ∧
    (mouseMoveEvent st t x).timer_active = true ∧
    debounceRun.jobs = [⟨10⟩] := by
  rw [mouseMoveEvent_req st t x hr hv hth hmiss]
  exact ⟨rfl, rfl, debounceRun_jobs⟩

/-- Witness for C7 (amended) on the fresh slider at t = 10. -/
theorem debounce_collapse_amended_witness :
    (initSlider true).slider_has_range = true ∧
    (initSlider true).video_file = true ∧
    ((1 : ℚ)/2 < |10 - (initSlider true).last_preview_time|) ∧
    cacheLookup (initSlider true).cache (pyRound 10) = none ∧
    ((mouseMoveEvent (initSlider true) 10 50).pending_time = 10 ∧
     (mouseMoveEvent (initSlider true) 10 50).timer_active = true ∧
     debounceRun.jobs = [⟨10⟩]) :=
  ⟨rfl, rfl, by show (1/2 : ℚ) < |10 - (-99 : ℚ)|; norm_num, rfl,
    debounce_collapse_amended (initSlider true) 10 50 rfl rfl
      (by show (1/2 : ℚ) < |10 - (-99 : ℚ)|; norm_num) rfl⟩

/-- C8: a successfully extracted image whose job completes when hovering
has ended or the hover position is more than 3 s away is not published
to the preview widget, but is still written into the cache under
`round(t)`, and the temporary file is removed. -/
theorem staleness_drop (st : SliderState) (t : ℚ) (img : Img)
    (himg : img.isNull = false)
    (hstale : st.is_hovering = false ∨ 3 < |t - st.hover_time|) :
    (_on_extraction_done st t img).published = false ∧
    cacheLookup (_on_extraction_done st t img).state.cache (pyRound t) = some img ∧
    (_on_extraction_done st t img).temp_file_deleted = true := by
  unfold _on_extraction_done
  rw [if_pos himg]
  rw [if_neg ?hcond]
  case hcond =>
    rintro ⟨hh, habs⟩
    rcases hstale with h1 | h1
    · have hh2 : st.is_hovering = true := hh
      rw [h1] at hh2
      exact absurd hh2 (by simp)
    · have habs2 : |t - st.hover_time| < 3 := habs
      exact absurd habs2 (not_lt.mpr (le_of_lt h1))
  refine ⟨rfl, ?_, rfl⟩
  exact cacheLookup_dictInsert_self _ _ _

/-- Witness for C8: a job for t = 5 completing while the hover is at
t = 40. -/
theorem staleness_drop_witness :
    sampleImg.isNull = false ∧
    (hoverAt40.is_hovering = false ∨ (3 : ℚ) < |5 - hoverAt40.hover_time|) ∧
    ((_on_extraction_done hoverAt40 5 sampleImg).published = false ∧
     cacheLookup (_on_extraction_done hoverAt40 5 sampleImg).state.cache
       (pyRound 5) = some sampleImg ∧
     (_on_extraction_done hoverAt40 5 sampleImg).temp_file_deleted = true) :=
  ⟨rfl, Or.inr (by show (3 : ℚ) < |5 - (40 : ℚ)|; norm_num),
    staleness_drop hoverAt40 5 sampleImg rfl
      (Or.inr (by show (3 : ℚ) < |5 - (40 : ℚ)|; norm_num))⟩

end SyLC
